import Mathlib

/-!
Shallow embedding of the habanero HTTP/1.1 message core (src/http1/request.rs,
src/http1/response.rs, src/http1/connection.rs, src/client.rs) and proofs of
the specification claims about it.

The header container of the source is `BTreeMap<String, String>`: a map with
unique keys whose iteration order is ascending key order.  It is embedded as a
strictly key-sorted association list with the BTreeMap `insert`/`get`
semantics.  Rust's `String` ordering is byte-lexicographic over UTF-8, which
coincides with Lean's lexicographic `String` order (UTF-8 is order-preserving
on code points).
-/

namespace Habanero

/-- The header container: association list of (key, value), kept strictly
sorted by key, mirroring `BTreeMap<String, String>` iteration order. -/
abbrev Headers := List (String × String)

/-- The strict key order: lexicographic comparison of the character data of
the two strings (Rust compares `String` byte-lexicographically over UTF-8,
which agrees with code-point lexicographic order). -/
def kLt (a b : String) : Prop :=
  a.data < b.data

instance : DecidableRel kLt := fun a b =>
  inferInstanceAs (Decidable (a.data < b.data))

/-- Embeds `BTreeMap::insert`: place `(k, v)` at its sorted position, overwriting an
existing entry with the same key. -/
def hInsert (k v : String) : Headers → Headers
  | [] => [(k, v)]
  | p :: rest =>
    if kLt k p.1 then (k, v) :: p :: rest
    else if k = p.1 then (k, v) :: rest
    else p :: hInsert k v rest

/-- Embeds `BTreeMap::get`: the value stored for `k`, or `none` when absent.  Keys
are compared by exact text equality; no case normalization. -/
def hGet (k : String) : Headers → Option String
  | [] => none
  | p :: rest => if p.1 = k then some p.2 else hGet k rest

/-- The fold in `Display for Request`/`Display for Response`:
each entry contributes one `"key: value\n"` line, in container order. -/
def headerLines (hs : Headers) : String :=
  hs.foldl (fun fold p => fold ++ p.1 ++ ": " ++ p.2 ++ "\n") ""

/-- Well-formedness of the container: keys strictly ascending (the BTreeMap
invariant). -/
def HWf (hs : Headers) : Prop :=
  List.Pairwise (fun p q : String × String => kLt p.1 q.1) hs

/-- Number of entries stored under key `k`. -/
def countKey (k : String) (hs : Headers) : Nat :=
  (hs.filter (fun p => p.1 = k)).length

/-- Embeds `enum Verb` from src/http1/request.rs. -/
inductive Verb
  | Connect
  | Delete
  | Get
  | Head
  | Options
  | Patch
  | Post
  | Put
  | Trace
deriving DecidableEq

/-- Embeds `Display for Verb`: the upper-cased variant name
(`format!("{self:?}").to_uppercase()`). -/
def Verb.toText : Verb → String
  | .Connect => "CONNECT"
  | .Delete => "DELETE"
  | .Get => "GET"
  | .Head => "HEAD"
  | .Options => "OPTIONS"
  | .Patch => "PATCH"
  | .Post => "POST"
  | .Put => "PUT"
  | .Trace => "TRACE"

/-- Embeds `enum Code` from src/http1/response.rs. -/
inductive Code
  | Continue
  | SwitchingProtocols
  | Processing
  | EarlyHints
  | Ok
  | Created
  | Accepted
  | NonAuthoritativeInformation
  | NoContent
  | ResetContent
  | PartialContent
  | MultiStatus
  | AlreadyReported
  | IMUsed
  | MultipleChoices
  | MovedPermanently
  | Found
  | SeeOther
  | NotModified
  | TemporaryRedirect
  | PermanentRedirect
  | BadRequest
  | Unauthorized
  | PaymentRequired
  | Forbidden
  | NotFound
  | MethodNotAllowed
  | NotAcceptable
  | ProxyAuthenticationRequired
  | RequestTimeout
  | Conflict
  | Gone
  | LengthRequired
  | PreconditionFailed
  | ContentTooLarge
  | UriTooLong
  | UnsupportedMediaType
  | RangeNotSatisfiable
  | ExpectationFailed
  | ImATeapot
  | MisdirectedRequest
  | UnprocessableContent
  | Locked
  | FailedDependency
  | TooEarly
  | UpgradeRequired
  | PreconditionRequired
  | TooManyRequests
  | RequestHeaderFieldsTooLarge
  | UnavailableForLegalReasons
  | InternalServerError
  | NotImplemented
  | BadGateway
  | ServiceUnavailable
  | GatewayTimeout
  | HTTPVersionNotSupported
  | VariantAlsoNegotiates
  | InsufficientStorage
  | LoopDetected
  | NotExtended
  | NetworkAuthenticationRequired
deriving DecidableEq

/-- The numeric discriminant of each `Code` variant (`*self as u16`). -/
def Code.numeric : Code → Nat
  | .Continue => 100
  | .SwitchingProtocols => 101
  | .Processing => 102
  | .EarlyHints => 103
  | .Ok => 200
  | .Created => 201
  | .Accepted => 202
  | .NonAuthoritativeInformation => 203
  | .NoContent => 204
  | .ResetContent => 205
  | .PartialContent => 206
  | .MultiStatus => 207
  | .AlreadyReported => 208
  | .IMUsed => 226
  | .MultipleChoices => 300
  | .MovedPermanently => 301
  | .Found => 302
  | .SeeOther => 303
  | .NotModified => 304
  | .TemporaryRedirect => 307
  | .PermanentRedirect => 308
  | .BadRequest => 400
  | .Unauthorized => 401
  | .PaymentRequired => 402
  | .Forbidden => 403
  | .NotFound => 404
  | .MethodNotAllowed => 405
  | .NotAcceptable => 406
  | .ProxyAuthenticationRequired => 407
  | .RequestTimeout => 408
  | .Conflict => 409
  | .Gone => 410
  | .LengthRequired => 411
  | .PreconditionFailed => 412
  | .ContentTooLarge => 413
  | .UriTooLong => 414
  | .UnsupportedMediaType => 415
  | .RangeNotSatisfiable => 416
  | .ExpectationFailed => 417
  | .ImATeapot => 418
  | .MisdirectedRequest => 421
  | .UnprocessableContent => 422
  | .Locked => 423
  | .FailedDependency => 424
  | .TooEarly => 425
  | .UpgradeRequired => 426
  | .PreconditionRequired => 428
  | .TooManyRequests => 429
  | .RequestHeaderFieldsTooLarge => 431
  | .UnavailableForLegalReasons => 451
  | .InternalServerError => 500
  | .NotImplemented => 501
  | .BadGateway => 502
  | .ServiceUnavailable => 503
  | .GatewayTimeout => 504
  | .HTTPVersionNotSupported => 505
  | .VariantAlsoNegotiates => 506
  | .InsufficientStorage => 507
  | .LoopDetected => 508
  | .NotExtended => 510
  | .NetworkAuthenticationRequired => 511

/-- The `readable` reason phrase of `Display for Code`, transcribed from the
`match` in src/http1/response.rs lines 489-559. -/
def Code.readable : Code → String
  | .Continue => "Continue"
  | .SwitchingProtocols => "Switching Protocols"
  | .Processing => "Processing"
  | .EarlyHints => "Early Hints"
  | .Ok => "OK"
  | .Created => "Created"
  | .Accepted => "Accepted"
  | .NonAuthoritativeInformation => "Non-Authoritative Information"
  | .NoContent => "No Content"
  | .ResetContent => "Reset Content"
  | .PartialContent => "Partial Content"
  | .MultiStatus => "Multi-Status"
  | .AlreadyReported => "Already Reported"
  | .IMUsed => "IM Used"
  | .MultipleChoices => "Multiple Choices"
  | .MovedPermanently => "Moved Permanently"
  | .Found => "Found"
  | .SeeOther => "See Other"
  | .NotModified => "Not Modified"
  | .TemporaryRedirect => "Temporary Redirect"
  | .PermanentRedirect => "Permanent Redirect"
  | .BadRequest => "Bad Request"
  | .Unauthorized => "Unauthorized"
  | .PaymentRequired => "Payment Required"
  | .Forbidden => "Forbidden"
  | .NotFound => "Not Found"
  | .MethodNotAllowed => "Method Not Allowed"
  | .NotAcceptable => "Not Acceptable"
  | .ProxyAuthenticationRequired => "Proxy Authentication Required"
  | .RequestTimeout => "Request Timeout"
  | .Conflict => "Conflict"
  | .Gone => "Gone"
  | .LengthRequired => "Length Required"
  | .PreconditionFailed => "Precondition Failed"
  | .ContentTooLarge => "Content Too Large"
  | .UriTooLong => "Uri Too Long"
  | .UnsupportedMediaType => "Unsupported Media Type"
  | .RangeNotSatisfiable => "Range Not Satisfiable"
  | .ExpectationFailed => "Expectation Failed"
  | .ImATeapot => "I'm a teapot"
  | .MisdirectedRequest => "Misdirected Request"
  | .UnprocessableContent => "Unprocessable Content"
  | .Locked => "Locked"
  | .FailedDependency => "Failed Dependency"
  | .TooEarly => "Too Early"
  | .UpgradeRequired => "Upgrade Required"
  | .PreconditionRequired => "Precondition Required"
  | .TooManyRequests => "Too Many Requests"
  | .RequestHeaderFieldsTooLarge => "Request Header Fields Too Large"
  | .UnavailableForLegalReasons => "Unavailable For Legal Reasons"
  | .InternalServerError => "Internal Server Error"
  | .NotImplemented => "Not Implemented"
  | .BadGateway => "Bad Gateway"
  | .ServiceUnavailable => "Service Unavailable"
  | .GatewayTimeout => "Gateway Timeout"
  | .HTTPVersionNotSupported => "Http Version Not Supported"
  | .VariantAlsoNegotiates => "Variant Also Negotiates"
  | .InsufficientStorage => "Insufficient Storage"
  | .LoopDetected => "Loop Detected"
  | .NotExtended => "Not Extended"
  | .NetworkAuthenticationRequired => "Network Authentication Required"

/-- Embeds `Display for Code`: `write!(f, "{code} {readable}")`. -/
def Code.toText (c : Code) : String :=
  toString c.numeric ++ " " ++ c.readable

/-- Embeds `http1::request::Builder` (src/http1/request.rs).  Primed field names
stand for the private struct fields; the builder methods below keep the
source's method names. -/
structure RequestBuilder where
  body' : String
  headers' : Headers
  target' : String
  verb' : Verb
deriving DecidableEq

/-- Embeds `request::Builder::new(verb, target)`. -/
def RequestBuilder.new (verb : Verb) (target : String) : RequestBuilder :=
  ⟨"", [], target, verb⟩

/-- Embeds `request::Builder::body`: replaces the body. -/
def RequestBuilder.body (b : RequestBuilder) (t : String) : RequestBuilder :=
  { b with body' := t }

/-- Embeds `request::Builder::header`: inserts/overwrites one header. -/
def RequestBuilder.header (b : RequestBuilder) (k v : String) : RequestBuilder :=
  { b with headers' := hInsert k v b.headers' }

/-- Embeds `request::Builder::json`: body, then Content-Type and Content-Length
headers; `body.len()` is the UTF-8 byte length of the text. -/
def RequestBuilder.json (b : RequestBuilder) (t : String) : RequestBuilder :=
  ((b.body t).header "Content-Type" "application/json").header
    "Content-Length" (toString t.utf8ByteSize)

/-- Embeds `request::Builder::url_encoded`. -/
def RequestBuilder.urlEncoded (b : RequestBuilder) (t : String) : RequestBuilder :=
  ((b.body t).header "Content-Type" "application/x-www-form-urlencoded").header
    "Content-Length" (toString t.utf8ByteSize)

/-- Embeds `http1::Request` (src/http1/request.rs).  The fields are the read-only
accessors `body()`, `headers()`, `target()`, `verb()`. -/
structure Request where
  body : String
  headers : Headers
  target : String
  verb : Verb
deriving DecidableEq

/-- Embeds `request::Builder::create`: finalizes into the immutable `Request`. -/
def RequestBuilder.create (b : RequestBuilder) : Request :=
  ⟨b.body', b.headers', b.target', b.verb'⟩

/-- Embeds `Request::build(verb, target)`. -/
def Request.build (verb : Verb) (target : String) : RequestBuilder :=
  RequestBuilder.new verb target

/-- Embeds the `Request::header(key)` accessor: lookup by exact key. -/
def Request.header (r : Request) (k : String) : Option String :=
  hGet k r.headers

/-- Embeds `Display for Request`:
`"{verb} {target} HTTP/1.1\n{header lines}\n{body}"`. -/
def Request.toText (r : Request) : String :=
  r.verb.toText ++ " " ++ r.target ++ " HTTP/1.1\n" ++
    headerLines r.headers ++ "\n" ++ r.body

/-- Embeds `http1::response::Builder` (src/http1/response.rs). -/
structure ResponseBuilder where
  body' : String
  code' : Code
  headers' : Headers
deriving DecidableEq

/-- Embeds `response::Builder::new(code)`. -/
def ResponseBuilder.new (code : Code) : ResponseBuilder :=
  ⟨"", code, []⟩

/-- Embeds `response::Builder::body`. -/
def ResponseBuilder.body (b : ResponseBuilder) (t : String) : ResponseBuilder :=
  { b with body' := t }

/-- Embeds `response::Builder::header`. -/
def ResponseBuilder.header (b : ResponseBuilder) (k v : String) : ResponseBuilder :=
  { b with headers' := hInsert k v b.headers' }

/-- Embeds `response::Builder::html`. -/
def ResponseBuilder.html (b : ResponseBuilder) (t : String) : ResponseBuilder :=
  ((b.body t).header "Content-Type" "text/html").header
    "Content-Length" (toString t.utf8ByteSize)

/-- Embeds `response::Builder::json`. -/
def ResponseBuilder.json (b : ResponseBuilder) (t : String) : ResponseBuilder :=
  ((b.body t).header "Content-Type" "application/json").header
    "Content-Length" (toString t.utf8ByteSize)

/-- Embeds `response::Builder::url_encoded`. -/
def ResponseBuilder.urlEncoded (b : ResponseBuilder) (t : String) : ResponseBuilder :=
  ((b.body t).header "Content-Type" "application/x-www-form-urlencoded").header
    "Content-Length" (toString t.utf8ByteSize)

/-- Embeds `http1::Response` (src/http1/response.rs). -/
structure Response where
  body : String
  code : Code
  headers : Headers
deriving DecidableEq

/-- Embeds `response::Builder::create`. -/
def ResponseBuilder.create (b : ResponseBuilder) : Response :=
  ⟨b.body', b.code', b.headers'⟩

/-- Embeds `Response::build(code)`. -/
def Response.build (code : Code) : ResponseBuilder :=
  ResponseBuilder.new code

/-- Embeds the `Response::header(key)` accessor. -/
def Response.header (r : Response) (k : String) : Option String :=
  hGet k r.headers

/-- Embeds `Display for Response`:
`"HTTP/1.1 {code}\n{header lines}\n{body}"`. -/
def Response.toText (r : Response) : String :=
  "HTTP/1.1 " ++ r.code.toText ++ "\n" ++ headerLines r.headers ++ "\n" ++ r.body

/-- One configuration call on a request builder. -/
inductive ReqOp
  | opHeader (k v : String)
  | opBody (t : String)
  | opJson (t : String)
  | opUrl (t : String)

/-- Apply one configuration call. -/
def RequestBuilder.apply (b : RequestBuilder) : ReqOp → RequestBuilder
  | .opHeader k v => b.header k v
  | .opBody t => b.body t
  | .opJson t => b.json t
  | .opUrl t => b.urlEncoded t

/-- Apply a whole chain of configuration calls, left to right. -/
def RequestBuilder.applyAll (b : RequestBuilder) (ops : List ReqOp) : RequestBuilder :=
  ops.foldl RequestBuilder.apply b

/-- One configuration call on a response builder. -/
inductive RespOp
  | opHeader (k v : String)
  | opBody (t : String)
  | opJson (t : String)
  | opUrl (t : String)
  | opHtml (t : String)

/-- Apply one configuration call. -/
def ResponseBuilder.apply (b : ResponseBuilder) : RespOp → ResponseBuilder
  | .opHeader k v => b.header k v
  | .opBody t => b.body t
  | .opJson t => b.json t
  | .opUrl t => b.urlEncoded t
  | .opHtml t => b.html t

/-- Apply a whole chain of configuration calls, left to right. -/
def ResponseBuilder.applyAll (b : ResponseBuilder) (ops : List RespOp) : ResponseBuilder :=
  ops.foldl ResponseBuilder.apply b

/-- Embeds `Connection` (src/http1/connection.rs): owns the connected stream.  The
stream type is abstract here. -/
structure Connection (τ : Type) where
  remote : τ

/-- Embeds `Connection::new`: `TcpStream::connect(remote).map_err(|_| 0)?`.  The
outcome of the underlying blocking TCP connect is abstracted as the
`Except ε τ` argument: `ok` a connected stream, `error` any failure cause. -/
def Connection.new {ε τ : Type} (r : Except ε τ) : Except Nat (Connection τ) :=
  match r with
  | .ok s => .ok ⟨s⟩
  | .error _ => .error 0

/-- Embeds `Client` (src/client.rs): owns a `Connection`. -/
structure Client (τ : Type) where
  remote : Connection τ

/-- Embeds `Client::new`: `Ok(Self { remote: Connection::new(remote)? })`. -/
def Client.new {ε τ : Type} (r : Except ε τ) : Except Nat (Client τ) :=
  match Connection.new r with
  | .ok c => .ok ⟨c⟩
  | .error e => .error e

/-- Embeds `client::Builder`: captures the remote address; the connect outcome that
address would produce is the abstracted field. -/
structure ClientBuilder (ε τ : Type) where
  remote : Except ε τ

/-- Embeds `client::Builder::create`: `Client::new(self.remote)`. -/
def ClientBuilder.create {ε τ : Type} (b : ClientBuilder ε τ) : Except Nat (Client τ) :=
  Client.new b.remote

/-! ### Order facts for the key comparison -/

theorem kLt_iff_lt {a b : String} : kLt a b ↔ a < b :=
  ⟨fun h => String.lt_iff_toList_lt.mpr h, fun h => String.lt_iff_toList_lt.mp h⟩

theorem kLt_irrefl (a : String) : ¬kLt a a :=
  fun h => lt_irrefl a (kLt_iff_lt.mp h)

theorem kLt_trans {a b c : String} (h1 : kLt a b) (h2 : kLt b c) : kLt a c :=
  kLt_iff_lt.mpr (lt_trans (kLt_iff_lt.mp h1) (kLt_iff_lt.mp h2))

theorem kLt_ne {a b : String} (h : kLt a b) : a ≠ b :=
  fun he => kLt_irrefl a (he ▸ h)

theorem kLt_flip {a b : String} (h1 : ¬kLt a b) (h2 : ¬(a = b)) : kLt b a :=
  kLt_iff_lt.mpr
    (lt_of_le_of_ne (not_lt.mp fun h => h1 (kLt_iff_lt.mpr h)) fun h => h2 h.symm)

/-! ### Container lemmas -/

theorem hGet_hInsert_self (k v : String) :
    ∀ hs : Headers, hGet k (hInsert k v hs) = some v
  | [] => by simp [hInsert, hGet]
  | (pk, pv) :: rest => by
    by_cases h1 : kLt k pk
    · simp [hInsert, h1, hGet]
    · by_cases h2 : k = pk
      · subst h2
        simp [hInsert, hGet, kLt_irrefl k]
      · simp [hInsert, h1, h2, hGet, Ne.symm h2, hGet_hInsert_self k v rest]

theorem hGet_hInsert_ne (k v kq : String) (hne : kq ≠ k) :
    ∀ hs : Headers, hGet kq (hInsert k v hs) = hGet kq hs
  | [] => by simp [hInsert, hGet, Ne.symm hne]
  | (pk, pv) :: rest => by
    by_cases h1 : kLt k pk
    · simp [hInsert, h1, hGet, Ne.symm hne]
    · by_cases h2 : k = pk
      · subst h2
        simp [hInsert, hGet, kLt_irrefl k, Ne.symm hne]
      · simp [hInsert, h1, h2, hGet, hGet_hInsert_ne k v kq hne rest]

theorem mem_hInsert {k v : String} {q : String × String} :
    ∀ {hs : Headers}, q ∈ hInsert k v hs → q = (k, v) ∨ q ∈ hs := by
  intro hs
  induction hs with
  | nil =>
    intro h
    simp only [hInsert] at h
    exact Or.inl (List.mem_singleton.mp h)
  | cons p rest ih =>
    intro h
    by_cases h1 : kLt k p.1
    · simp only [hInsert, if_pos h1] at h
      rcases List.mem_cons.mp h with h | h
      · exact Or.inl h
      · exact Or.inr h
    · by_cases h2 : k = p.1
      · simp only [hInsert, if_neg h1, if_pos h2] at h
        rcases List.mem_cons.mp h with h | h
        · exact Or.inl h
        · exact Or.inr (List.mem_cons_of_mem p h)
      · simp only [hInsert, if_neg h1, if_neg h2] at h
        rcases List.mem_cons.mp h with h | h
        · exact Or.inr (List.mem_cons.mpr (Or.inl h))
        · rcases ih h with h | h
          · exact Or.inl h
          · exact Or.inr (List.mem_cons_of_mem p h)

theorem HWf.insert {hs : Headers} (h : HWf hs) (k v : String) : HWf (hInsert k v hs) := by
  induction hs with
  | nil => simp [hInsert, HWf]
  | cons p rest ih =>
    rw [HWf, List.pairwise_cons] at h
    obtain ⟨hhead, htail⟩ := h
    by_cases h1 : kLt k p.1
    · rw [HWf]
      simp only [hInsert, if_pos h1]
      refine List.Pairwise.cons ?_ (List.Pairwise.cons hhead htail)
      intro q hq
      rcases List.mem_cons.mp hq with h | h
      · exact h ▸ h1
      · exact kLt_trans h1 (hhead q h)
    · by_cases h2 : k = p.1
      · rw [HWf]
        simp only [hInsert, if_neg h1, if_pos h2]
        refine List.Pairwise.cons ?_ htail
        intro q hq
        exact h2 ▸ hhead q hq
      · rw [HWf]
        simp only [hInsert, if_neg h1, if_neg h2]
        refine List.Pairwise.cons ?_ (ih htail)
        intro q hq
        rcases mem_hInsert hq with h | h
        · exact h ▸ kLt_flip h1 h2
        · exact hhead q h

theorem hInsert_hInsert_same (k v1 v2 : String) :
    ∀ hs : Headers, hInsert k v2 (hInsert k v1 hs) = hInsert k v2 hs
  | [] => by simp [hInsert, kLt_irrefl k]
  | (pk, pv) :: rest => by
    by_cases h1 : kLt k pk
    · simp [hInsert, h1, kLt_irrefl k]
    · by_cases h2 : k = pk
      · subst h2
        simp [hInsert, kLt_irrefl k]
      · simp [hInsert, h1, h2, hInsert_hInsert_same k v1 v2 rest]

theorem countKey_eq_zero {k : String} :
    ∀ {hs : Headers}, (∀ q ∈ hs, q.1 ≠ k) → countKey k hs = 0
  | [], _ => rfl
  | p :: rest, h => by
    have hp : p.1 ≠ k := h p (List.mem_cons_self p rest)
    have htl : countKey k rest = 0 :=
      countKey_eq_zero fun q hq => h q (List.mem_cons_of_mem p hq)
    rw [countKey, List.filter_cons] at *
    simp [hp, htl]

theorem countKey_hInsert (k v : String) :
    ∀ {hs : Headers}, HWf hs → countKey k (hInsert k v hs) = 1 := by
  intro hs
  induction hs with
  | nil => intro _; simp [hInsert, countKey]
  | cons p rest ih =>
    intro h
    rw [HWf, List.pairwise_cons] at h
    obtain ⟨hhead, htail⟩ := h
    by_cases h1 : kLt k p.1
    · have hzero : countKey k (p :: rest) = 0 := by
        refine countKey_eq_zero ?_
        intro q hq
        rcases List.mem_cons.mp hq with hqe | hqm
        · exact fun he => kLt_ne h1 (by rw [hqe] at he; exact he.symm)
        · exact fun he => kLt_ne (kLt_trans h1 (hhead q hqm)) he.symm
      simp only [hInsert, if_pos h1]
      rw [countKey, List.filter_cons]
      rw [countKey] at hzero
      simp [hzero]
    · by_cases h2 : k = p.1
      · have hzero : countKey k rest = 0 := by
          refine countKey_eq_zero ?_
          intro q hq he
          exact kLt_ne (hhead q hq) (by rw [← h2, he])
        simp only [hInsert, if_neg h1, if_pos h2]
        rw [countKey, List.filter_cons]
        rw [countKey] at hzero
        simp [hzero]
      · have hpk : p.1 ≠ k := fun he => h2 he.symm
        simp only [hInsert, if_neg h1, if_neg h2]
        rw [countKey, List.filter_cons]
        have := ih htail
        rw [countKey] at this
        simp [hpk, this]

/-! ### Rendering lemmas -/

theorem headerLines_foldl (hs : Headers) :
    ∀ s : String,
      hs.foldl (fun fold p => fold ++ p.1 ++ ": " ++ p.2 ++ "\n") s =
        s ++ headerLines hs := by
  induction hs with
  | nil => intro s; simp [headerLines]
  | cons p rest ih =>
    intro s
    rw [headerLines, List.foldl_cons, List.foldl_cons, ih, ih]
    apply String.ext
    simp [String.data_append]

theorem sJoin_cons (a : String) (l : List String) :
    String.join (a :: l) = a ++ String.join l := by
  apply String.ext
  simp [String.join_eq, String.data_append]

theorem headerLines_eq_join (hs : Headers) :
    headerLines hs = String.join (hs.map fun p => p.1 ++ ": " ++ p.2 ++ "\n") := by
  induction hs with
  | nil => rfl
  | cons p rest ih =>
    rw [headerLines, List.foldl_cons, headerLines_foldl, List.map_cons, sJoin_cons, ← ih]
    apply String.ext
    simp [String.data_append]

/-! ### Builder chain invariants -/

theorem RequestBuilder.wf_apply_req {b : RequestBuilder} (h : HWf b.headers') :
    ∀ op : ReqOp, HWf ((b.apply op).headers')
  | .opHeader k v => h.insert k v
  | .opBody _ => h
  | .opJson t =>
    (h.insert "Content-Type" "application/json").insert
      "Content-Length" (toString t.utf8ByteSize)
  | .opUrl t =>
    (h.insert "Content-Type" "application/x-www-form-urlencoded").insert
      "Content-Length" (toString t.utf8ByteSize)

theorem RequestBuilder.wf_applyAll_req :
    ∀ (ops : List ReqOp) (b : RequestBuilder),
      HWf b.headers' → HWf ((b.applyAll ops).headers')
  | [], _, h => h
  | op :: ops, b, h => RequestBuilder.wf_applyAll_req ops (b.apply op) (RequestBuilder.wf_apply_req h op)

theorem RequestBuilder.target_apply (b : RequestBuilder) (op : ReqOp) :
    (b.apply op).target' = b.target' := by
  cases op <;> rfl

theorem RequestBuilder.target_applyAll :
    ∀ (ops : List ReqOp) (b : RequestBuilder), (b.applyAll ops).target' = b.target'
  | [], _ => rfl
  | op :: ops, b =>
    (RequestBuilder.target_applyAll ops (b.apply op)).trans (RequestBuilder.target_apply b op)

theorem RequestBuilder.verb_apply (b : RequestBuilder) (op : ReqOp) :
    (b.apply op).verb' = b.verb' := by
  cases op <;> rfl

theorem RequestBuilder.verb_applyAll :
    ∀ (ops : List ReqOp) (b : RequestBuilder), (b.applyAll ops).verb' = b.verb'
  | [], _ => rfl
  | op :: ops, b =>
    (RequestBuilder.verb_applyAll ops (b.apply op)).trans (RequestBuilder.verb_apply b op)

theorem ResponseBuilder.wf_apply_resp {b : ResponseBuilder} (h : HWf b.headers') :
    ∀ op : RespOp, HWf ((b.apply op).headers')
  | .opHeader k v => h.insert k v
  | .opBody _ => h
  | .opJson t =>
    (h.insert "Content-Type" "application/json").insert
      "Content-Length" (toString t.utf8ByteSize)
  | .opUrl t =>
    (h.insert "Content-Type" "application/x-www-form-urlencoded").insert
      "Content-Length" (toString t.utf8ByteSize)
  | .opHtml t =>
    (h.insert "Content-Type" "text/html").insert
      "Content-Length" (toString t.utf8ByteSize)

theorem ResponseBuilder.wf_applyAll_resp :
    ∀ (ops : List RespOp) (b : ResponseBuilder),
      HWf b.headers' → HWf ((b.applyAll ops).headers')
  | [], _, h => h
  | op :: ops, b, h =>
    ResponseBuilder.wf_applyAll_resp ops (b.apply op) (ResponseBuilder.wf_apply_resp h op)

theorem ResponseBuilder.code_apply (b : ResponseBuilder) (op : RespOp) :
    (b.apply op).code' = b.code' := by
  cases op <;> rfl

theorem ResponseBuilder.code_applyAll :
    ∀ (ops : List RespOp) (b : ResponseBuilder), (b.applyAll ops).code' = b.code'
  | [], _ => rfl
  | op :: ops, b =>
    (ResponseBuilder.code_applyAll ops (b.apply op)).trans (ResponseBuilder.code_apply b op)

/-! ### Observations on constructed messages

Every public operation on a constructed `Request`/`Response` takes `&self`
(a shared borrow) in the source: it produces a result and leaves the message
as it was.  The operation set below enumerates that public interface. -/

/-- The read-only operations available on a constructed `Request`. -/
inductive ReqObs
  | obsVerb
  | obsTarget
  | obsHeader (k : String)
  | obsHeaders
  | obsBody
  | obsRender

/-- Results the read-only operations can produce. -/
inductive ObsVal
  | valVerb (v : Verb)
  | valText (s : String)
  | valOpt (o : Option String)
  | valMap (hs : Headers)
  | valCode (c : Code)

/-- Run one read-only operation: result plus the message afterwards. -/
def Request.observe (r : Request) : ReqObs → ObsVal × Request
  | .obsVerb => (.valVerb r.verb, r)
  | .obsTarget => (.valText r.target, r)
  | .obsHeader k => (.valOpt (r.header k), r)
  | .obsHeaders => (.valMap r.headers, r)
  | .obsBody => (.valText r.body, r)
  | .obsRender => (.valText r.toText, r)

/-- The read-only operations available on a constructed `Response`. -/
inductive RespObs
  | obsCode
  | obsHeader (k : String)
  | obsHeaders
  | obsBody
  | obsRender

/-- Run one read-only operation: result plus the message afterwards. -/
def Response.observe (r : Response) : RespObs → ObsVal × Response
  | .obsCode => (.valCode r.code, r)
  | .obsHeader k => (.valOpt (r.header k), r)
  | .obsHeaders => (.valMap r.headers, r)
  | .obsBody => (.valText r.body, r)
  | .obsRender => (.valText r.toText, r)

/-! ### Claim theorems -/

/-- Claim C8: `Verb` is the closed set of exactly nine variants
Connect, Delete, Get, Head, Options, Patch, Post, Put, Trace, and each
variant renders on the wire as its upper-cased token name. -/
theorem C8_verb_enumeration_and_rendering :
    (∀ v : Verb,
      v = Verb.Connect ∨ v = Verb.Delete ∨ v = Verb.Get ∨ v = Verb.Head ∨
        v = Verb.Options ∨ v = Verb.Patch ∨ v = Verb.Post ∨ v = Verb.Put ∨ v = Verb.Trace)
    ∧ Verb.toText Verb.Connect = "CONNECT"
    ∧ Verb.toText Verb.Delete = "DELETE"
    ∧ Verb.toText Verb.Get = "GET"
    ∧ Verb.toText Verb.Head = "HEAD"
    ∧ Verb.toText Verb.Options = "OPTIONS"
    ∧ Verb.toText Verb.Patch = "PATCH"
    ∧ Verb.toText Verb.Post = "POST"
    ∧ Verb.toText Verb.Put = "PUT"
    ∧ Verb.toText Verb.Trace = "TRACE" := by
  refine ⟨fun v => ?_, rfl, rfl, rfl, rfl, rfl, rfl, rfl, rfl, rfl⟩
  cases v <;> simp

/-- Claim C3 counterexample: the code renders 414 as `"414 Uri Too Long"`
and 505 as `"505 Http Version Not Supported"`, not the IANA-verbatim
`"URI Too Long"` / `"HTTP Version Not Supported"` capitalization the claim
asserts for every variant. -/
theorem C3_code_rendering_counterexample :
    Code.toText Code.UriTooLong = "414 Uri Too Long"
    ∧ Code.toText Code.UriTooLong ≠ "414 URI Too Long"
    ∧ Code.toText Code.HTTPVersionNotSupported = "505 Http Version Not Supported"
    ∧ Code.toText Code.HTTPVersionNotSupported ≠ "505 HTTP Version Not Supported" :=
  ⟨rfl, by decide, rfl, by decide⟩

/-- Claim C3 (amended): every `Code` variant renders as
`"<numeric> <reason phrase>"` with the numeric value its IANA-registered
status number in the 100-511 range; the reason phrase is the source's fixed
table, which matches the IANA canonical phrase verbatim (including
punctuation, capitalization and hyphenation) for the claim's listed examples,
except that 414 renders as `"Uri Too Long"` and 505 as
`"Http Version Not Supported"`. -/
theorem C3_code_rendering_amended :
    (∀ c : Code,
      Code.toText c = toString (Code.numeric c) ++ " " ++ Code.readable c
      ∧ 100 ≤ Code.numeric c ∧ Code.numeric c ≤ 511)
    ∧ Code.toText Code.Ok = "200 OK"
    ∧ Code.toText Code.NotFound = "404 Not Found"
    ∧ Code.toText Code.ImATeapot = "418 I'm a teapot"
    ∧ Code.toText Code.NonAuthoritativeInformation = "203 Non-Authoritative Information"
    ∧ Code.toText Code.MultiStatus = "207 Multi-Status"
    ∧ Code.toText Code.UriTooLong = "414 Uri Too Long"
    ∧ Code.toText Code.HTTPVersionNotSupported = "505 Http Version Not Supported" := by
  constructor
  · intro c
    refine ⟨rfl, ?_, ?_⟩ <;> cases c <;> decide
  · exact ⟨rfl, rfl, rfl, rfl, rfl, rfl, rfl⟩

/-- Claim C6: header keys are compared by exact text equality with no case
normalization: with only key `k` ever set, looking up `kq` returns the stored
value exactly when `kq` equals `k` character for character, and `none` for
every other `kq`, including keys differing only in letter case. -/
theorem C6_exact_key_lookup :
    (∀ (verb : Verb) (target k v kq : String),
      (((Request.build verb target).header k v).create).header kq
        = if kq = k then some v else none)
    ∧ (∀ (code : Code) (k v kq : String),
      (((Response.build code).header k v).create).header kq
        = if kq = k then some v else none)
    ∧ (((Request.build Verb.Get "/").header "Content-Type" "x").create).header
        "content-type" = none := by
  refine ⟨?_, ?_, by decide⟩
  · intro verb target k v kq
    by_cases h : kq = k
    · subst h
      simp [Request.build, RequestBuilder.new, RequestBuilder.header,
        RequestBuilder.create, Request.header, hInsert, hGet]
    · simp [Request.build, RequestBuilder.new, RequestBuilder.header,
        RequestBuilder.create, Request.header, hInsert, hGet, h, Ne.symm h]
  · intro code k v kq
    by_cases h : kq = k
    · subst h
      simp [Response.build, ResponseBuilder.new, ResponseBuilder.header,
        ResponseBuilder.create, Response.header, hInsert, hGet]
    · simp [Response.build, ResponseBuilder.new, ResponseBuilder.header,
        ResponseBuilder.create, Response.header, hInsert, hGet, h, Ne.symm h]

/-- Claim C2: on both builders, `json t` equals `body t` followed by
`header "Content-Type" "application/json"` and `header "Content-Length" s`
where `s` is the decimal string of the UTF-8 byte length of `t` (not the
character count); `url_encoded` and (on responses) `html` satisfy the same
equivalence with their content types.  The built message indeed carries these
header values, byte length also for multi-byte text. -/
theorem C2_convenience_equivalences :
    (∀ (b : RequestBuilder) (t : String),
      b.json t = ((b.body t).header "Content-Type" "application/json").header
        "Content-Length" (toString t.utf8ByteSize))
    ∧ (∀ (b : RequestBuilder) (t : String),
      b.urlEncoded t = ((b.body t).header "Content-Type"
        "application/x-www-form-urlencoded").header
        "Content-Length" (toString t.utf8ByteSize))
    ∧ (∀ (b : ResponseBuilder) (t : String),
      b.json t = ((b.body t).header "Content-Type" "application/json").header
        "Content-Length" (toString t.utf8ByteSize))
    ∧ (∀ (b : ResponseBuilder) (t : String),
      b.urlEncoded t = ((b.body t).header "Content-Type"
        "application/x-www-form-urlencoded").header
        "Content-Length" (toString t.utf8ByteSize))
    ∧ (∀ (b : ResponseBuilder) (t : String),
      b.html t = ((b.body t).header "Content-Type" "text/html").header
        "Content-Length" (toString t.utf8ByteSize))
    ∧ (∀ (b : RequestBuilder) (t : String),
      ((b.json t).create).header "Content-Length" = some (toString t.utf8ByteSize)
      ∧ ((b.json t).create).header "Content-Type" = some "application/json"
      ∧ ((b.json t).create).body = t)
    ∧ ("é".utf8ByteSize = 2 ∧ "é".length = 1
      ∧ (((Request.build Verb.Post "/").json "é").create).header "Content-Length"
          = some "2") := by
  refine ⟨fun b t => rfl, fun b t => rfl, fun b t => rfl, fun b t => rfl, fun b t => rfl,
    fun b t => ⟨?_, ?_, rfl⟩, by decide, by decide, by decide⟩
  · exact hGet_hInsert_self "Content-Length" (toString t.utf8ByteSize) _
  · rw [Request.header]
    show hGet "Content-Type" (hInsert "Content-Length" _ (hInsert "Content-Type" _ _)) = _
    rw [hGet_hInsert_ne _ _ _ (by decide), hGet_hInsert_self]

/-- Claim C1: every request built via `Request::build(verb, target)` with any
chain of builder calls renders as the verb token, a space, the target, a
space, the literal `"HTTP/1.1"`, a linefeed, one linefeed-terminated
`"key: value"` line per header with the header container in strictly
ascending (lexicographic) key order, a blank linefeed line, then the body;
and the POST example renders to exactly the string the spec gives, with
Content-Length before Content-Type. -/
theorem C1_request_wire_format (verb : Verb) (target : String) (ops : List ReqOp) :
    (((Request.build verb target).applyAll ops).create.toText
        = verb.toText ++ " " ++ target ++ " " ++ "HTTP/1.1" ++ "\n"
            ++ String.join ((((Request.build verb target).applyAll ops).create.headers).map
                fun p => p.1 ++ ": " ++ p.2 ++ "\n")
            ++ "\n" ++ ((Request.build verb target).applyAll ops).create.body)
    ∧ HWf (((Request.build verb target).applyAll ops).create.headers)
    ∧ ((((((Request.build Verb.Post "/").header "Content-Type" "text/plain").header
          "Content-Length" "11").body "Hello World").create).toText
        = "POST / HTTP/1.1\nContent-Length: 11\nContent-Type: text/plain\n\nHello World") := by
  refine ⟨?_, RequestBuilder.wf_applyAll_req ops (Request.build verb target) List.Pairwise.nil,
    by decide⟩
  have htar : ((Request.build verb target).applyAll ops).create.target = target :=
    RequestBuilder.target_applyAll ops (Request.build verb target)
  have hverb : ((Request.build verb target).applyAll ops).create.verb = verb :=
    RequestBuilder.verb_applyAll ops (Request.build verb target)
  rw [← headerLines_eq_join]
  simp only [Request.toText, htar, hverb]
  simp only [String.append_assoc]
  have hlit : ∀ X : String, (" HTTP/1.1\n" : String) ++ X = " " ++ ("HTTP/1.1" ++ ("\n" ++ X)) := by
    intro X
    have h : (" " ++ "HTTP/1.1" ++ "\n" : String) = " HTTP/1.1\n" := by decide
    rw [← h, String.append_assoc, String.append_assoc]
  rw [hlit]

/-- Claim C4: every response built via `Response::build(code)` with any chain
of builder calls renders as `"HTTP/1.1 "`, the code's numeric value, a space,
the code's reason phrase, a linefeed, the key-sorted header lines each ending
in a linefeed, a blank linefeed line, and the body; `Response::build(Ok)`
renders `"HTTP/1.1 200 OK\n\n"` and `ImATeapot` renders
`"418 I'm a teapot"`. -/
theorem C4_response_wire_format (code : Code) (ops : List RespOp) :
    (((Response.build code).applyAll ops).create.toText
        = "HTTP/1.1 " ++ toString (Code.numeric code) ++ " " ++ Code.readable code ++ "\n"
            ++ String.join ((((Response.build code).applyAll ops).create.headers).map
                fun p => p.1 ++ ": " ++ p.2 ++ "\n")
            ++ "\n" ++ ((Response.build code).applyAll ops).create.body)
    ∧ HWf (((Response.build code).applyAll ops).create.headers)
    ∧ ((Response.build Code.Ok).create.toText = "HTTP/1.1 200 OK\n\n")
    ∧ Code.toText Code.ImATeapot = "418 I'm a teapot" := by
  refine ⟨?_, ResponseBuilder.wf_applyAll_resp ops (Response.build code) List.Pairwise.nil,
    rfl, rfl⟩
  have hcode : ((Response.build code).applyAll ops).create.code = code :=
    ResponseBuilder.code_applyAll ops (Response.build code)
  rw [← headerLines_eq_join]
  simp only [Response.toText, hcode, Code.toText]
  simp only [String.append_assoc]

/-- Well-formedness is preserved along a chain of `header` calls that all use
the key `k`. -/
theorem RequestBuilder.wf_foldl_header (k : String) :
    ∀ (vs : List String) (b : RequestBuilder),
      HWf b.headers' → HWf ((vs.foldl (fun acc v => acc.header k v) b).headers')
  | [], _, h => h
  | v :: vs, b, h =>
    RequestBuilder.wf_foldl_header k vs (b.header k v) (h.insert k v)

/-- A chain of request-builder `header` calls with one key collapses to the
final call. -/
theorem RequestBuilder.foldl_header_last_req (k : String) :
    ∀ (vs : List String) (vlast : String) (b : RequestBuilder),
      (vs ++ [vlast]).foldl (fun acc v => acc.header k v) b = b.header k vlast
  | [], _, _ => rfl
  | v :: vs, vlast, b => by
    rw [List.cons_append, List.foldl_cons,
      RequestBuilder.foldl_header_last_req k vs vlast (b.header k v)]
    show RequestBuilder.mk _ (hInsert k vlast (hInsert k v b.headers')) _ _ = _
    rw [hInsert_hInsert_same]
    rfl

/-- A chain of response-builder `header` calls with one key collapses to the
final call. -/
theorem ResponseBuilder.foldl_header_last_resp (k : String) :
    ∀ (vs : List String) (vlast : String) (b : ResponseBuilder),
      (vs ++ [vlast]).foldl (fun acc v => acc.header k v) b = b.header k vlast
  | [], _, _ => rfl
  | v :: vs, vlast, b => by
    rw [List.cons_append, List.foldl_cons,
      ResponseBuilder.foldl_header_last_resp k vs vlast (b.header k v)]
    show ResponseBuilder.mk _ _ (hInsert k vlast (hInsert k v b.headers')) = _
    rw [hInsert_hInsert_same]
    rfl

/-- Claim C5: on both builder kinds, after any sequence of `header` calls
reusing one key, the built message's container holds exactly one entry for
that key, holding the last value written, and the accessor returns that
value; an insertion of an existing key unconditionally overwrites it. -/
theorem C5_last_write_wins (verb : Verb) (target : String) (code : Code)
    (reqOps : List ReqOp) (respOps : List RespOp)
    (k : String) (vs ws : List String) (vlast wlast : String) :
    (((vs ++ [vlast]).foldl (fun acc v => acc.header k v)
        ((Request.build verb target).applyAll reqOps)).create).header k = some vlast
    ∧ countKey k (((vs ++ [vlast]).foldl (fun acc v => acc.header k v)
        ((Request.build verb target).applyAll reqOps)).create).headers = 1
    ∧ (((ws ++ [wlast]).foldl (fun acc v => acc.header k v)
        ((Response.build code).applyAll respOps)).create).header k = some wlast
    ∧ countKey k (((ws ++ [wlast]).foldl (fun acc v => acc.header k v)
        ((Response.build code).applyAll respOps)).create).headers = 1
    ∧ (∀ (b : RequestBuilder) (v : String), ((b.header k v).create).header k = some v)
    ∧ (∀ (b : ResponseBuilder) (v : String), ((b.header k v).create).header k = some v) := by
  have hwfReq : HWf (((Request.build verb target).applyAll reqOps).headers') :=
    RequestBuilder.wf_applyAll_req reqOps (Request.build verb target) List.Pairwise.nil
  have hwfResp : HWf (((Response.build code).applyAll respOps).headers') :=
    ResponseBuilder.wf_applyAll_resp respOps (Response.build code) List.Pairwise.nil
  rw [RequestBuilder.foldl_header_last_req, ResponseBuilder.foldl_header_last_resp]
  refine ⟨?_, ?_, ?_, ?_, ?_, ?_⟩
  · exact hGet_hInsert_self k vlast _
  · exact countKey_hInsert k vlast hwfReq
  · exact hGet_hInsert_self k wlast _
  · exact countKey_hInsert k wlast hwfResp
  · intro b v
    exact hGet_hInsert_self k v _
  · intro b v
    exact hGet_hInsert_self k v _

/-- Claim C7: the only fallible operations are `Connection::new` and
`Client::create`, and every failure, whatever the underlying connect error,
surfaces as the single opaque numeric sentinel `0`; on a successful connect
both return success values. -/
theorem C7_single_error_sentinel (ε τ : Type) (r : Except ε τ) :
    ((∃ c, Connection.new r = Except.ok c) ∨ Connection.new r = Except.error 0)
    ∧ ((∃ c, ClientBuilder.create (⟨r⟩ : ClientBuilder ε τ) = Except.ok c)
        ∨ ClientBuilder.create (⟨r⟩ : ClientBuilder ε τ) = Except.error 0)
    ∧ (∀ e : ε, Connection.new (τ := τ) (Except.error e) = Except.error 0
        ∧ ClientBuilder.create (⟨Except.error e⟩ : ClientBuilder ε τ) = Except.error 0) := by
  cases r with
  | ok s => exact ⟨Or.inl ⟨⟨s⟩, rfl⟩, Or.inl ⟨⟨⟨s⟩⟩, rfl⟩, fun e => ⟨rfl, rfl⟩⟩
  | error e => exact ⟨Or.inr rfl, Or.inr rfl, fun e => ⟨rfl, rfl⟩⟩

/-- Claim C9: a constructed message is immutable: every operation of its
public interface (accessors and wire rendering, all taking a shared borrow)
leaves the message unchanged, and a message is fully determined by its
builder, so a different message requires a different builder. -/
theorem C9_message_immutability :
    (∀ (r : Request) (o : ReqObs), (Request.observe r o).2 = r)
    ∧ (∀ (r : Response) (o : RespObs), (Response.observe r o).2 = r)
    ∧ (∀ b1 b2 : RequestBuilder, b1.create = b2.create → b1 = b2)
    ∧ (∀ b1 b2 : ResponseBuilder, b1.create = b2.create → b1 = b2) := by
  refine ⟨?_, ?_, ?_, ?_⟩
  · intro r o
    cases o <;> rfl
  · intro r o
    cases o <;> rfl
  · intro b1 b2 h
    cases b1
    cases b2
    simp only [RequestBuilder.create, Request.mk.injEq] at h
    obtain ⟨h1, h2, h3, h4⟩ := h
    subst h1; subst h2; subst h3; subst h4
    rfl
  · intro b1 b2 h
    cases b1
    cases b2
    simp only [ResponseBuilder.create, Response.mk.injEq] at h
    obtain ⟨h1, h2, h3⟩ := h
    subst h1; subst h2; subst h3
    rfl

/-- Witness for C9 at concrete messages and builders. -/
theorem C9_message_immutability_witness :
    (Request.observe ((Request.build Verb.Get "/").create) ReqObs.obsBody).2
        = (Request.build Verb.Get "/").create
    ∧ (Request.build Verb.Get "/") = (Request.build Verb.Get "/") :=
  ⟨C9_message_immutability.1 _ _, C9_message_immutability.2.2.1 _ _ rfl⟩

/-- Claim C10: `json`, `url_encoded` and `html` change only the body and the
Content-Type / Content-Length headers: any other header key keeps its value,
and the request's verb and target, or the response's code, are unchanged. -/
theorem C10_convenience_frame (k v t : String)
    (hct : k ≠ "Content-Type") (hcl : k ≠ "Content-Length") :
    (∀ b : RequestBuilder, hGet k b.headers' = some v →
      hGet k (b.json t).headers' = some v
      ∧ (b.json t).verb' = b.verb' ∧ (b.json t).target' = b.target'
      ∧ hGet k (b.urlEncoded t).headers' = some v
      ∧ (b.urlEncoded t).verb' = b.verb' ∧ (b.urlEncoded t).target' = b.target')
    ∧ (∀ b : ResponseBuilder, hGet k b.headers' = some v →
      hGet k (b.json t).headers' = some v
      ∧ hGet k (b.urlEncoded t).headers' = some v
      ∧ hGet k (b.html t).headers' = some v
      ∧ (b.json t).code' = b.code'
      ∧ (b.urlEncoded t).code' = b.code'
      ∧ (b.html t).code' = b.code') := by
  constructor
  · intro b h
    refine ⟨?_, rfl, rfl, ?_, rfl, rfl⟩
    · show hGet k (hInsert "Content-Length" _ (hInsert "Content-Type" _ b.headers')) = _
      rw [hGet_hInsert_ne _ _ _ hcl, hGet_hInsert_ne _ _ _ hct, h]
    · show hGet k (hInsert "Content-Length" _ (hInsert "Content-Type" _ b.headers')) = _
      rw [hGet_hInsert_ne _ _ _ hcl, hGet_hInsert_ne _ _ _ hct, h]
  · intro b h
    refine ⟨?_, ?_, ?_, rfl, rfl, rfl⟩ <;>
      · show hGet k (hInsert "Content-Length" _ (hInsert "Content-Type" _ b.headers')) = _
        rw [hGet_hInsert_ne _ _ _ hcl, hGet_hInsert_ne _ _ _ hct, h]

/-- Witness for C10 at a concrete builder holding an unrelated header. -/
theorem C10_convenience_frame_witness :
    ("Accept" ≠ "Content-Type") ∧ ("Accept" ≠ "Content-Length")
    ∧ hGet "Accept" ((((Request.build Verb.Post "/").header "Accept" "a").json
        "x").headers') = some "a" := by
  refine ⟨by decide, by decide, ?_⟩
  exact (((C10_convenience_frame "Accept" "a" "x" (by decide) (by decide)).1
    ((Request.build Verb.Post "/").header "Accept" "a") (by decide))).1

end Habanero
